import Mathlib

/-!
Verification of the blobscan client library (`src/blobscan_client/mod.rs`).

The excerpt under verification contains the API client (`BlobscanClient`
with its six operations and `build_url` / `build_jwt_manager` /
`with_client`).  The `jwt_manager` and `types` submodules are declared by
the excerpt but their sources are not part of it, so the token manager,
the signer and the error/entity types are modelled from the specification
(each such definition says so in its doc comment).

Times and durations (`chrono::Duration`, timestamps) are modelled as `Int`
measured in seconds; `chrono::Duration::minutes(30)` becomes `1800`.
HTTP transport is modelled by passing the response (status code and raw
body text) as an explicit argument, and each operation returns, next to
its result, the list of requests it sent, so that headers, URLs, bodies
and the absence of network I/O on early error returns are all visible.
-/

namespace Blobscan

/-- Modelled from the spec: the error raised by the token manager when local
credential generation fails (`AuthError::SigningFailed`, spec §7); the
`jwt_manager` module is absent from the excerpt. -/
inductive AuthError where
  | SigningFailed (msg : String)
deriving DecidableEq, Repr

/-- Modelled from the spec: the token manager configuration (spec §3 `Config`):
secret key, refresh interval, optional safety margin.  The field name
`safety_magin` keeps the spelling the excerpt uses at the construction site
in `build_jwt_manager`. -/
structure JWTManagerConfig where
  secret_key : String
  refresh_interval : Int
  safety_magin : Option Int
deriving DecidableEq, Repr

/-- Modelled from the spec: the cached token (spec §3 `CachedToken`): opaque
signed value, issuance time, and expiry `issued_at + refresh_interval`. -/
structure CachedToken where
  value : String
  issued_at : Int
  expires_at : Int
deriving DecidableEq, Repr

/-- Modelled from the spec: the outcome of one `get_token()` call — the token
string handed to the caller, the cache contents after the call, and the
number of signing operations the call performed (0 on a cache hit, 1 on a
refresh). -/
structure GetTokenResult where
  token : String
  cache : Option CachedToken
  signs : Nat
deriving DecidableEq, Repr

/-- Modelled from the spec: `TokenManager.get_token()` (spec §4.1).  The
signer is passed as a function `sign issued_at expiry secret_key` (spec §4.2:
a deterministic pure function that may fail with `SigningFailed`); `dflt` is
the documented default safety margin used when `safety_magin` is absent
(spec leaves its numeric value open); `now` is the value read from the
Clock; `cache` is the manager's current cached token.  If a cached token
exists and `now < expires_at − safety_margin` the cached value is returned
unchanged with no signing work and no mutation; otherwise fresh claims
`(issued_at = now, expiry = now + refresh_interval)` are signed, stored as
the new cached token, and returned. -/
def get_token (sign : Int → Int → String → Except AuthError String)
    (dflt : Int) (cfg : JWTManagerConfig) (now : Int)
    (cache : Option CachedToken) : Except AuthError GetTokenResult :=
  let margin := cfg.safety_magin.getD dflt
  let refresh : Except AuthError GetTokenResult :=
    match sign now (now + cfg.refresh_interval) cfg.secret_key with
    | .ok v => .ok ⟨v, some ⟨v, now, now + cfg.refresh_interval⟩, 1⟩
    | .error e => .error e
  match cache with
  | some tok =>
      if now < tok.expires_at - margin then .ok ⟨tok.value, some tok, 0⟩
      else refresh
  | none => refresh

/-- Modelled from the spec: the serialized execution of `n` `get_token()`
calls at the same clock instant `now`, which is the behavior the spec's
single-flight discipline guarantees for `n` concurrent callers (spec §5:
the refresh path is a short mutual exclusion around check-then-sign-then-
store, so concurrent calls execute as some serialization of atomic calls).
Returns the tokens received in order, the final cache, and the total number
of signing operations. -/
def run_calls (sign : Int → Int → String → Except AuthError String)
    (dflt : Int) (cfg : JWTManagerConfig) (now : Int) :
    Nat → Option CachedToken → Except AuthError (List String × Option CachedToken × Nat)
  | 0, cache => .ok ([], cache, 0)
  | n + 1, cache =>
    match get_token sign dflt cfg now cache with
    | .error e => .error e
    | .ok r =>
      match run_calls sign dflt cfg now n r.cache with
      | .error e => .error e
      | .ok (ts, c, s) => .ok (r.token :: ts, c, r.signs + s)

/-- Modelled from the spec: a concrete deterministic signer instance (spec
§4.2: `sign(claims, secret_key)` is a pure function of its inputs), used to
evaluate the theorems at concrete inputs. -/
def signEx (issued_at expiry : Int) (secret_key : String) : Except AuthError String :=
  .ok (secret_key ++ "." ++ toString issued_at ++ "." ++ toString expiry)

/-- Modelled from the spec: opaque block payload entity; the `types`
submodule is absent from the excerpt and the claims never inspect it. -/
structure BlockEntity where
  raw : Nat
deriving DecidableEq, Repr

/-- Modelled from the spec: opaque transaction payload entity (`types`
submodule absent from the excerpt). -/
structure TransactionEntity where
  raw : Nat
deriving DecidableEq, Repr

/-- Modelled from the spec: opaque blob payload entity (`types` submodule
absent from the excerpt). -/
structure BlobEntity where
  raw : Nat
deriving DecidableEq, Repr

/-- Modelled from the spec: opaque failed-slots chunk entity (`types`
submodule absent from the excerpt). -/
structure FailedSlotsChunkEntity where
  raw : Nat
deriving DecidableEq, Repr

/-- Modelled from the spec: the client error type of the `types` submodule.
`BlobscanClientError` is the variant the excerpt constructs from a non-200
response body; `JwtError` is the conversion the `?` operator applies to a
token manager error; `DecodeError` covers a response body that does not
match the expected shape (spec §7). -/
inductive BlobscanClientError where
  | BlobscanClientError (body : String)
  | JwtError (e : AuthError)
  | DecodeError (msg : String)
deriving DecidableEq, Repr

/-- The JSON request bodies the excerpt serializes, one constructor per
request type (`IndexRequest`, `SlotRequest`, `FailedSlotsChunksRequest`,
`RemoveFailedSlotsChunksRequest`). -/
inductive ReqBody where
  | indexBody (block : BlockEntity) (transactions : List TransactionEntity)
      (blobs : List BlobEntity)
  | slotBody (slot : Nat)
  | failedChunksBody (chunks : List FailedSlotsChunkEntity)
  | removeChunksBody (chunk_ids : List Nat)
deriving DecidableEq, Repr

/-- An outbound HTTP request as the excerpt assembles it: method, full URL,
the bearer token attached via `bearer_auth`, and the JSON body if any. -/
structure SentRequest where
  method : String
  url : String
  bearer : String
  body : Option ReqBody
deriving DecidableEq, Repr

/-- An HTTP response as the operations interpret it: status code and raw
body text (`resp.text()`). -/
structure HttpResponse where
  status : Nat
  body : String
deriving DecidableEq, Repr

/-- The `Config` struct of `mod.rs`: base URL, secret key, and an optional
transport timeout (duration in seconds). -/
structure Config where
  base_url : String
  secret_key : String
  timeout : Option Int
deriving DecidableEq, Repr

/-- The `BlobscanClient` struct of `mod.rs`.  The `reqwest::Client`
transport handle carries no data the claims mention and is omitted; the
`jwt_manager` field holds the manager's configuration (its mutable cache is
threaded explicitly through `get_token`). -/
structure BlobscanClient where
  base_url : String
  jwt_manager : JWTManagerConfig
deriving DecidableEq, Repr

/-- `build_jwt_manager` of `mod.rs`: a manager configured with the given
secret key, `refresh_interval = chrono::Duration::minutes(30)` (1800
seconds) and `safety_magin: None`. -/
def build_jwt_manager (secret_key : String) : JWTManagerConfig :=
  { secret_key := secret_key, refresh_interval := 1800, safety_magin := none }

/-- `BlobscanClient::with_client` of `mod.rs`: stores the base URL and the
manager built by `build_jwt_manager` from the config's secret key. -/
def with_client (config : Config) : BlobscanClient :=
  { base_url := config.base_url, jwt_manager := build_jwt_manager config.secret_key }

/-- `build_url` of `mod.rs`: `format!("{}/api/{}", base_url, path)`. -/
def build_url (base_url : String) (path : String) : String :=
  base_url ++ "/api/" ++ path

/-- `BlobscanClient::index` of `mod.rs`.  `tokenRes` is the outcome of
`self.jwt_manager.get_token()`; on its error the `?` operator returns
before any request is sent.  Otherwise a POST to `build_url "index"` with
bearer token and the `IndexRequest` body is sent; status 200 yields
`Ok(())`, any other status yields an error carrying the response body
text. -/
def index (c : BlobscanClient) (tokenRes : Except AuthError String)
    (block : BlockEntity) (transactions : List TransactionEntity)
    (blobs : List BlobEntity) (resp : HttpResponse) :
    Except BlobscanClientError Unit × List SentRequest :=
  let url := build_url c.base_url "index"
  match tokenRes with
  | .error e => (.error (.JwtError e), [])
  | .ok token =>
    let req : SentRequest := ⟨"POST", url, token, some (.indexBody block transactions blobs)⟩
    if resp.status = 200 then (.ok (), [req])
    else (.error (.BlobscanClientError resp.body), [req])

/-- `BlobscanClient::update_slot` of `mod.rs`: POST to `build_url "slot"`
with body `SlotRequest { slot }`; 200 yields `Ok(())`, any other status an
error carrying the response body text. -/
def update_slot (c : BlobscanClient) (tokenRes : Except AuthError String)
    (slot : Nat) (resp : HttpResponse) :
    Except BlobscanClientError Unit × List SentRequest :=
  let url := build_url c.base_url "slot"
  match tokenRes with
  | .error e => (.error (.JwtError e), [])
  | .ok token =>
    let req : SentRequest := ⟨"POST", url, token, some (.slotBody slot)⟩
    if resp.status = 200 then (.ok (), [req])
    else (.error (.BlobscanClientError resp.body), [req])

/-- `BlobscanClient::get_slot` of `mod.rs`: GET to `build_url "slot"`;
status 200 decodes the body as `SlotResponse` (the serde decoder is passed
as `decodeSlot`) and yields `Ok(Some(slot))`, status 404 yields `Ok(None)`,
any other status an error carrying the response body text. -/
def get_slot (c : BlobscanClient) (tokenRes : Except AuthError String)
    (decodeSlot : String → Except BlobscanClientError Nat)
    (resp : HttpResponse) :
    Except BlobscanClientError (Option Nat) × List SentRequest :=
  let url := build_url c.base_url "slot"
  match tokenRes with
  | .error e => (.error (.JwtError e), [])
  | .ok token =>
    let req : SentRequest := ⟨"GET", url, token, none⟩
    if resp.status = 200 then
      match decodeSlot resp.body with
      | .ok n => (.ok (some n), [req])
      | .error e => (.error e, [req])
    else if resp.status = 404 then (.ok none, [req])
    else (.error (.BlobscanClientError resp.body), [req])

/-- `BlobscanClient::get_failed_slots_chunks` of `mod.rs`: GET to
`build_url "failed-slots-chunks"`; status 200 decodes the body as
`GetFailedSlotsChunksResponse` and yields its chunks, any other status an
error carrying the response body text. -/
def get_failed_slots_chunks (c : BlobscanClient) (tokenRes : Except AuthError String)
    (decodeChunks : String → Except BlobscanClientError (List FailedSlotsChunkEntity))
    (resp : HttpResponse) :
    Except BlobscanClientError (List FailedSlotsChunkEntity) × List SentRequest :=
  let url := build_url c.base_url "failed-slots-chunks"
  match tokenRes with
  | .error e => (.error (.JwtError e), [])
  | .ok token =>
    let req : SentRequest := ⟨"GET", url, token, none⟩
    if resp.status = 200 then
      match decodeChunks resp.body with
      | .ok chunks => (.ok chunks, [req])
      | .error e => (.error e, [req])
    else (.error (.BlobscanClientError resp.body), [req])

/-- `BlobscanClient::add_failed_slots_chunks` of `mod.rs`: POST to
`build_url "failed-slots-chunks"` with body
`FailedSlotsChunksRequest { chunks }`; 200 yields `Ok(())`, any other
status an error carrying the response body text. -/
def add_failed_slots_chunks (c : BlobscanClient) (tokenRes : Except AuthError String)
    (slots_chunks : List FailedSlotsChunkEntity) (resp : HttpResponse) :
    Except BlobscanClientError Unit × List SentRequest :=
  let url := build_url c.base_url "failed-slots-chunks"
  match tokenRes with
  | .error e => (.error (.JwtError e), [])
  | .ok token =>
    let req : SentRequest := ⟨"POST", url, token, some (.failedChunksBody slots_chunks)⟩
    if resp.status = 200 then (.ok (), [req])
    else (.error (.BlobscanClientError resp.body), [req])

/-- `BlobscanClient::remove_failed_slots_chunks` of `mod.rs`: POST to
`build_url "delete-failed-slots-chunks"` with body
`RemoveFailedSlotsChunksRequest { chunk_ids }`; 200 yields `Ok(())`, any
other status an error carrying the response body text. -/
def remove_failed_slots_chunks (c : BlobscanClient) (tokenRes : Except AuthError String)
    (chunk_ids : List Nat) (resp : HttpResponse) :
    Except BlobscanClientError Unit × List SentRequest :=
  let url := build_url c.base_url "delete-failed-slots-chunks"
  match tokenRes with
  | .error e => (.error (.JwtError e), [])
  | .ok token =>
    let req : SentRequest := ⟨"POST", url, token, some (.removeChunksBody chunk_ids)⟩
    if resp.status = 200 then (.ok (), [req])
    else (.error (.BlobscanClientError resp.body), [req])

/-- Helper: a cache hit returns the cached value with no signing work and no
mutation. -/
theorem get_token_hit (sign : Int → Int → String → Except AuthError String)
    (dflt : Int) (cfg : JWTManagerConfig) (now : Int) (tok : CachedToken)
    (h : now < tok.expires_at - cfg.safety_magin.getD dflt) :
    get_token sign dflt cfg now (some tok) = .ok ⟨tok.value, some tok, 0⟩ := by
  simp [get_token, h]

/-- Helper: with an empty cache, a successful signing stores and returns the
fresh token. -/
theorem get_token_refresh_none (sign : Int → Int → String → Except AuthError String)
    (dflt : Int) (cfg : JWTManagerConfig) (now : Int) (v : String)
    (hsig : sign now (now + cfg.refresh_interval) cfg.secret_key = .ok v) :
    get_token sign dflt cfg now none =
      .ok ⟨v, some ⟨v, now, now + cfg.refresh_interval⟩, 1⟩ := by
  simp [get_token, hsig]

/-- Helper: with an expired cache, a successful signing replaces the cache
and returns the fresh token. -/
theorem get_token_refresh_expired (sign : Int → Int → String → Except AuthError String)
    (dflt : Int) (cfg : JWTManagerConfig) (now : Int) (tok : CachedToken) (v : String)
    (h : tok.expires_at - cfg.safety_magin.getD dflt ≤ now)
    (hsig : sign now (now + cfg.refresh_interval) cfg.secret_key = .ok v) :
    get_token sign dflt cfg now (some tok) =
      .ok ⟨v, some ⟨v, now, now + cfg.refresh_interval⟩, 1⟩ := by
  have hn : ¬ now < tok.expires_at - cfg.safety_magin.getD dflt := not_lt.mpr h
  simp [get_token, hn, hsig]

/-- Helper: any number of calls at an instant inside the validity window of
the cached token are all cache hits: same value every time, no signing, no
mutation. -/
theorem run_calls_hit (sign : Int → Int → String → Except AuthError String)
    (dflt : Int) (cfg : JWTManagerConfig) (now : Int) (n : Nat) (tok : CachedToken)
    (h : now < tok.expires_at - cfg.safety_magin.getD dflt) :
    run_calls sign dflt cfg now n (some tok) =
      .ok (List.replicate n tok.value, some tok, 0) := by
  induction n with
  | zero => simp [run_calls]
  | succ m ih =>
      rw [run_calls, get_token_hit sign dflt cfg now tok h]
      simp [ih, List.replicate_succ]

/-- Helper: whenever `get_token` succeeds, the returned token is the value of
the (non-empty) cache it leaves behind, and that cached token still has at
least the effective safety margin of remaining validity. -/
theorem get_token_validity (sign : Int → Int → String → Except AuthError String)
    (dflt : Int) (cfg : JWTManagerConfig) (now : Int) (cache : Option CachedToken)
    (r : GetTokenResult)
    (hmr : cfg.safety_magin.getD dflt ≤ cfg.refresh_interval)
    (hok : get_token sign dflt cfg now cache = .ok r) :
    r.cache ≠ none ∧ r.token = (r.cache.getD ⟨"", 0, 0⟩).value ∧
      cfg.safety_magin.getD dflt ≤ (r.cache.getD ⟨"", 0, 0⟩).expires_at - now := by
  unfold get_token at hok
  cases cache with
  | none =>
      dsimp only at hok
      cases hs : sign now (now + cfg.refresh_interval) cfg.secret_key with
      | ok v =>
          rw [hs] at hok
          cases hok
          refine ⟨by simp, by simp, ?_⟩
          simp
          omega
      | error e => rw [hs] at hok; cases hok
  | some tok =>
      dsimp only at hok
      by_cases h : now < tok.expires_at - cfg.safety_magin.getD dflt
      · rw [if_pos h] at hok
        cases hok
        refine ⟨by simp, by simp, ?_⟩
        simp
        omega
      · rw [if_neg h] at hok
        cases hs : sign now (now + cfg.refresh_interval) cfg.secret_key with
        | ok v =>
            rw [hs] at hok
            cases hok
            refine ⟨by simp, by simp, ?_⟩
            simp
            omega
        | error e => rw [hs] at hok; cases hok

/-- Helper: when the cached token has crossed its refresh threshold, a
successful `get_token` performs exactly one signing operation and replaces
the cache with a token issued now; the expired token is not handed out
again. -/
theorem get_token_expired_signs (sign : Int → Int → String → Except AuthError String)
    (dflt : Int) (cfg : JWTManagerConfig) (now : Int) (tok : CachedToken)
    (r : GetTokenResult)
    (h : tok.expires_at - cfg.safety_magin.getD dflt ≤ now)
    (hok : get_token sign dflt cfg now (some tok) = .ok r) :
    r.signs = 1 ∧ r.cache = some ⟨r.token, now, now + cfg.refresh_interval⟩ := by
  unfold get_token at hok
  dsimp only at hok
  rw [if_neg (not_lt.mpr h)] at hok
  cases hs : sign now (now + cfg.refresh_interval) cfg.secret_key with
  | ok v => rw [hs] at hok; cases hok; exact ⟨rfl, rfl⟩
  | error e => rw [hs] at hok; cases hok

/-- Helper: `index` with a token sends exactly one POST request, bearing
that token, to the index URL, whatever the response. -/
theorem index_requests (c : BlobscanClient) (t : String) (block : BlockEntity)
    (transactions : List TransactionEntity) (blobs : List BlobEntity)
    (resp : HttpResponse) :
    (index c (.ok t) block transactions blobs resp).2 =
      [⟨"POST", build_url c.base_url "index", t,
        some (.indexBody block transactions blobs)⟩] := by
  unfold index
  dsimp only
  split <;> rfl

/-- Helper: `update_slot` with a token sends exactly one POST request,
bearing that token, to the slot URL, whatever the response. -/
theorem update_slot_requests (c : BlobscanClient) (t : String) (slot : Nat)
    (resp : HttpResponse) :
    (update_slot c (.ok t) slot resp).2 =
      [⟨"POST", build_url c.base_url "slot", t, some (.slotBody slot)⟩] := by
  unfold update_slot
  dsimp only
  split <;> rfl

/-- Helper: `get_slot` with a token sends exactly one GET request, bearing
that token, to the slot URL, whatever the response. -/
theorem get_slot_requests (c : BlobscanClient) (t : String)
    (decodeSlot : String → Except BlobscanClientError Nat) (resp : HttpResponse) :
    (get_slot c (.ok t) decodeSlot resp).2 =
      [⟨"GET", build_url c.base_url "slot", t, none⟩] := by
  unfold get_slot
  dsimp only
  split
  · split <;> rfl
  · split <;> rfl

/-- Helper: `get_failed_slots_chunks` with a token sends exactly one GET
request, bearing that token, to the failed-slots-chunks URL, whatever the
response. -/
theorem get_failed_slots_chunks_requests (c : BlobscanClient) (t : String)
    (decodeChunks : String → Except BlobscanClientError (List FailedSlotsChunkEntity))
    (resp : HttpResponse) :
    (get_failed_slots_chunks c (.ok t) decodeChunks resp).2 =
      [⟨"GET", build_url c.base_url "failed-slots-chunks", t, none⟩] := by
  unfold get_failed_slots_chunks
  dsimp only
  split
  · split <;> rfl
  · rfl

/-- Helper: `add_failed_slots_chunks` with a token sends exactly one POST
request, bearing that token, to the failed-slots-chunks URL, whatever the
response. -/
theorem add_failed_slots_chunks_requests (c : BlobscanClient) (t : String)
    (slots_chunks : List FailedSlotsChunkEntity) (resp : HttpResponse) :
    (add_failed_slots_chunks c (.ok t) slots_chunks resp).2 =
      [⟨"POST", build_url c.base_url "failed-slots-chunks", t,
        some (.failedChunksBody slots_chunks)⟩] := by
  unfold add_failed_slots_chunks
  dsimp only
  split <;> rfl

/-- Helper: `remove_failed_slots_chunks` with a token sends exactly one POST
request, bearing that token, to the delete-failed-slots-chunks URL, whatever
the response. -/
theorem remove_failed_slots_chunks_requests (c : BlobscanClient) (t : String)
    (chunk_ids : List Nat) (resp : HttpResponse) :
    (remove_failed_slots_chunks c (.ok t) chunk_ids resp).2 =
      [⟨"POST", build_url c.base_url "delete-failed-slots-chunks", t,
        some (.removeChunksBody chunk_ids)⟩] := by
  unfold remove_failed_slots_chunks
  dsimp only
  split <;> rfl

/-- C1: for every N ≥ 2 `get_token()` calls executing against an expired (or
absent) cache at the same clock instant — modelled as the serialized
execution the spec's single-flight mutual exclusion imposes on N concurrent
callers — exactly one signing operation executes and every one of the N
callers receives the same newly issued token value. -/
theorem c1_single_flight_refresh (sign : Int → Int → String → Except AuthError String)
    (dflt : Int) (cfg : JWTManagerConfig) (now : Int) (cache : Option CachedToken)
    (N : Nat) (v : String)
    (hN : 2 ≤ N)
    (hmr : cfg.safety_magin.getD dflt < cfg.refresh_interval)
    (hsig : sign now (now + cfg.refresh_interval) cfg.secret_key = .ok v)
    (hexp : cache = none ∨
      ∃ tok, cache = some tok ∧ tok.expires_at - cfg.safety_magin.getD dflt ≤ now) :
    run_calls sign dflt cfg now N cache =
      .ok (List.replicate N v, some ⟨v, now, now + cfg.refresh_interval⟩, 1) := by
  obtain ⟨m, rfl⟩ : ∃ m, N = m + 1 := ⟨N - 1, by omega⟩
  have h1 : get_token sign dflt cfg now cache =
      .ok ⟨v, some ⟨v, now, now + cfg.refresh_interval⟩, 1⟩ := by
    rcases hexp with rfl | ⟨tok, rfl, htok⟩
    · exact get_token_refresh_none sign dflt cfg now v hsig
    · exact get_token_refresh_expired sign dflt cfg now tok v htok hsig
  have hfresh : now <
      (CachedToken.mk v now (now + cfg.refresh_interval)).expires_at -
        cfg.safety_magin.getD dflt := by
    dsimp only
    omega
  rw [run_calls, h1]
  dsimp only
  rw [run_calls_hit sign dflt cfg now m ⟨v, now, now + cfg.refresh_interval⟩ hfresh]
  simp [List.replicate_succ]

/-- C1 witness: three callers against an empty cache with the concrete
signer: one signing operation, all three receive the same token. -/
theorem c1_single_flight_refresh_witness :
    run_calls signEx 60 (build_jwt_manager "k") 0 3 none =
      .ok (List.replicate 3 "k.0.1800", some ⟨"k.0.1800", 0, 1800⟩, 1) :=
  c1_single_flight_refresh signEx 60 (build_jwt_manager "k") 0 none 3 "k.0.1800"
    (by decide) (by decide) rfl (Or.inl rfl)

/-- C2: with a cached token whose validity window still covers `now`
(`now < issued_at + refresh_interval − safety_margin`), a `get_token()` call
returns the cached value with zero signing operations and the cache
unchanged, and two successive calls both return that identical value with
zero signing operations in total. -/
theorem c2_cache_hit_two_calls (sign : Int → Int → String → Except AuthError String)
    (dflt : Int) (cfg : JWTManagerConfig) (now : Int) (tok : CachedToken)
    (hexp : tok.expires_at = tok.issued_at + cfg.refresh_interval)
    (h : now < tok.issued_at + cfg.refresh_interval - cfg.safety_magin.getD dflt) :
    get_token sign dflt cfg now (some tok) = .ok ⟨tok.value, some tok, 0⟩ ∧
    run_calls sign dflt cfg now 2 (some tok) =
      .ok ([tok.value, tok.value], some tok, 0) := by
  have hwin : now < tok.expires_at - cfg.safety_magin.getD dflt := by omega
  refine ⟨get_token_hit sign dflt cfg now tok hwin, ?_⟩
  rw [run_calls_hit sign dflt cfg now 2 tok hwin]
  rfl

/-- C2 witness: a token issued at 0 with a 30-minute interval, queried twice
at time 100 with a 60-second margin: both calls return it unchanged. -/
theorem c2_cache_hit_two_calls_witness :
    get_token signEx 60 (build_jwt_manager "k") 100 (some ⟨"t", 0, 1800⟩) =
      .ok ⟨"t", some ⟨"t", 0, 1800⟩, 0⟩ ∧
    run_calls signEx 60 (build_jwt_manager "k") 100 2 (some ⟨"t", 0, 1800⟩) =
      .ok (["t", "t"], some ⟨"t", 0, 1800⟩, 0) :=
  c2_cache_hit_two_calls signEx 60 (build_jwt_manager "k") 100 ⟨"t", 0, 1800⟩
    rfl (by decide)

/-- C3: whenever `get_token()` returns a token, that token is the value of
the cache entry it leaves behind and has remaining validity of at least the
effective safety margin at the moment it is returned; and once
`now ≥ expires_at − safety_margin` the cached token is never handed out
again: the call performs one signing operation and replaces the cache with a
token issued at `now`. -/
theorem c3_validity_invariant (sign : Int → Int → String → Except AuthError String)
    (dflt : Int) (cfg : JWTManagerConfig) (now : Int) (cache : Option CachedToken)
    (tok : CachedToken) (r : GetTokenResult)
    (hmr : cfg.safety_magin.getD dflt ≤ cfg.refresh_interval)
    (hok : get_token sign dflt cfg now cache = .ok r) :
    (r.cache ≠ none ∧ r.token = (r.cache.getD ⟨"", 0, 0⟩).value ∧
      cfg.safety_magin.getD dflt ≤ (r.cache.getD ⟨"", 0, 0⟩).expires_at - now) ∧
    (cache = some tok → tok.expires_at - cfg.safety_magin.getD dflt ≤ now →
      r.signs = 1 ∧ r.cache = some ⟨r.token, now, now + cfg.refresh_interval⟩) := by
  refine ⟨get_token_validity sign dflt cfg now cache r hmr hok, ?_⟩
  intro hc hlate
  subst hc
  exact get_token_expired_signs sign dflt cfg now tok r hlate hok

/-- C3 witness: an expired token (expiry 1800, margin 60, now 2000): the
returned fresh token has at least 60 seconds of validity, and the expired
entry is replaced, not reused. -/
theorem c3_validity_invariant_witness :
    ((GetTokenResult.mk "k.2000.3800" (some ⟨"k.2000.3800", 2000, 3800⟩) 1).cache ≠ none ∧
      (GetTokenResult.mk "k.2000.3800" (some ⟨"k.2000.3800", 2000, 3800⟩) 1).token =
        ((GetTokenResult.mk "k.2000.3800" (some ⟨"k.2000.3800", 2000, 3800⟩) 1).cache.getD
          ⟨"", 0, 0⟩).value ∧
      (build_jwt_manager "k").safety_magin.getD 60 ≤
        ((GetTokenResult.mk "k.2000.3800" (some ⟨"k.2000.3800", 2000, 3800⟩) 1).cache.getD
          ⟨"", 0, 0⟩).expires_at - 2000) ∧
    ((GetTokenResult.mk "k.2000.3800" (some ⟨"k.2000.3800", 2000, 3800⟩) 1).signs = 1 ∧
      (GetTokenResult.mk "k.2000.3800" (some ⟨"k.2000.3800", 2000, 3800⟩) 1).cache =
        some ⟨(GetTokenResult.mk "k.2000.3800" (some ⟨"k.2000.3800", 2000, 3800⟩) 1).token,
          2000, 2000 + (build_jwt_manager "k").refresh_interval⟩) := by
  have h := c3_validity_invariant signEx 60 (build_jwt_manager "k") 2000
    (some ⟨"t", 0, 1800⟩) ⟨"t", 0, 1800⟩
    ⟨"k.2000.3800", some ⟨"k.2000.3800", 2000, 3800⟩, 1⟩ (by decide) rfl
  exact ⟨h.1, h.2 rfl (by decide)⟩

/-- C4: `get_slot` maps the response status as follows: a 200 response whose
body decodes as a slot value `n` yields `Ok(Some(n))`; a 404 response yields
`Ok(None)` (absence, not an error); any other status yields an error
carrying that response's body text. -/
theorem c4_get_slot_status_mapping (c : BlobscanClient) (t : String)
    (decodeSlot : String → Except BlobscanClientError Nat)
    (resp : HttpResponse) (n : Nat) :
    (resp.status = 200 → decodeSlot resp.body = .ok n →
      get_slot c (.ok t) decodeSlot resp =
        (.ok (some n), [⟨"GET", build_url c.base_url "slot", t, none⟩])) ∧
    (resp.status = 404 →
      get_slot c (.ok t) decodeSlot resp =
        (.ok none, [⟨"GET", build_url c.base_url "slot", t, none⟩])) ∧
    (resp.status ≠ 200 → resp.status ≠ 404 →
      get_slot c (.ok t) decodeSlot resp =
        (.error (.BlobscanClientError resp.body),
         [⟨"GET", build_url c.base_url "slot", t, none⟩])) := by
  refine ⟨?_, ?_, ?_⟩
  · intro h200 hdec
    simp [get_slot, h200, hdec]
  · intro h404
    simp [get_slot, h404]
  · intro h200 h404
    simp [get_slot, h200, h404]

/-- C4 witness: a 200 response decoding to slot 42 yields `Some 42`; a 404
yields `None`; a 500 with body boom yields an error carrying boom. -/
theorem c4_get_slot_status_mapping_witness :
    get_slot (with_client ⟨"http://b", "k", none⟩) (.ok "t") (fun _ => .ok 42)
        ⟨200, "slotbody"⟩ =
      (.ok (some 42), [⟨"GET", "http://b/api/slot", "t", none⟩]) ∧
    get_slot (with_client ⟨"http://b", "k", none⟩) (.ok "t") (fun _ => .ok 42)
        ⟨404, ""⟩ =
      (.ok none, [⟨"GET", "http://b/api/slot", "t", none⟩]) ∧
    get_slot (with_client ⟨"http://b", "k", none⟩) (.ok "t") (fun _ => .ok 42)
        ⟨500, "boom"⟩ =
      (.error (.BlobscanClientError "boom"),
       [⟨"GET", "http://b/api/slot", "t", none⟩]) :=
  ⟨(c4_get_slot_status_mapping (with_client ⟨"http://b", "k", none⟩) "t"
      (fun _ => .ok 42) ⟨200, "slotbody"⟩ 42).1 rfl rfl,
   (c4_get_slot_status_mapping (with_client ⟨"http://b", "k", none⟩) "t"
      (fun _ => .ok 42) ⟨404, ""⟩ 42).2.1 rfl,
   (c4_get_slot_status_mapping (with_client ⟨"http://b", "k", none⟩) "t"
      (fun _ => .ok 42) ⟨500, "boom"⟩ 42).2.2 (by decide) (by decide)⟩

/-- C5: for every one of the six client operations, a response with a
non-200 status — other than the documented 404 case of `get_slot` — results
in an error value carrying the raw response body text. -/
theorem c5_non_200_is_error_with_body (c : BlobscanClient) (t : String)
    (block : BlockEntity) (transactions : List TransactionEntity)
    (blobs : List BlobEntity) (slot : Nat)
    (decodeSlot : String → Except BlobscanClientError Nat)
    (decodeChunks : String → Except BlobscanClientError (List FailedSlotsChunkEntity))
    (slots_chunks : List FailedSlotsChunkEntity) (chunk_ids : List Nat)
    (resp : HttpResponse) (h200 : resp.status ≠ 200) :
    (index c (.ok t) block transactions blobs resp).1 =
      .error (.BlobscanClientError resp.body) ∧
    (update_slot c (.ok t) slot resp).1 = .error (.BlobscanClientError resp.body) ∧
    (resp.status ≠ 404 →
      (get_slot c (.ok t) decodeSlot resp).1 = .error (.BlobscanClientError resp.body)) ∧
    (get_failed_slots_chunks c (.ok t) decodeChunks resp).1 =
      .error (.BlobscanClientError resp.body) ∧
    (add_failed_slots_chunks c (.ok t) slots_chunks resp).1 =
      .error (.BlobscanClientError resp.body) ∧
    (remove_failed_slots_chunks c (.ok t) chunk_ids resp).1 =
      .error (.BlobscanClientError resp.body) := by
  refine ⟨?_, ?_, ?_, ?_, ?_, ?_⟩
  · simp [index, h200]
  · simp [update_slot, h200]
  · intro h404
    simp [get_slot, h200, h404]
  · simp [get_failed_slots_chunks, h200]
  · simp [add_failed_slots_chunks, h200]
  · simp [remove_failed_slots_chunks, h200]

/-- C5 witness: all six operations, on a 500 response with body boom, return
an error carrying boom. -/
theorem c5_non_200_is_error_with_body_witness :
    (index (with_client ⟨"http://b", "k", none⟩) (.ok "t") ⟨0⟩ [] [] ⟨500, "boom"⟩).1 =
      .error (.BlobscanClientError "boom") ∧
    (update_slot (with_client ⟨"http://b", "k", none⟩) (.ok "t") 7 ⟨500, "boom"⟩).1 =
      .error (.BlobscanClientError "boom") ∧
    ((500 : Nat) ≠ 404 →
      (get_slot (with_client ⟨"http://b", "k", none⟩) (.ok "t") (fun _ => .ok 42)
        ⟨500, "boom"⟩).1 = .error (.BlobscanClientError "boom")) ∧
    (get_failed_slots_chunks (with_client ⟨"http://b", "k", none⟩) (.ok "t")
        (fun _ => .ok []) ⟨500, "boom"⟩).1 = .error (.BlobscanClientError "boom") ∧
    (add_failed_slots_chunks (with_client ⟨"http://b", "k", none⟩) (.ok "t") [⟨3⟩]
        ⟨500, "boom"⟩).1 = .error (.BlobscanClientError "boom") ∧
    (remove_failed_slots_chunks (with_client ⟨"http://b", "k", none⟩) (.ok "t") [1, 2]
        ⟨500, "boom"⟩).1 = .error (.BlobscanClientError "boom") :=
  c5_non_200_is_error_with_body (with_client ⟨"http://b", "k", none⟩) "t"
    ⟨0⟩ [] [] 7 (fun _ => .ok 42) (fun _ => .ok []) [⟨3⟩] [1, 2] ⟨500, "boom"⟩ (by decide)

/-- C6: when the token manager's `get_token()` succeeds with token `r.token`
and an operation runs with that token, every request the operation sends —
exactly one per operation — carries that token as its bearer credential,
for each of the six operations. -/
theorem c6_every_request_bears_token (c : BlobscanClient)
    (sign : Int → Int → String → Except AuthError String)
    (dflt : Int) (cfg : JWTManagerConfig) (now : Int)
    (cache : Option CachedToken) (r : GetTokenResult)
    (block : BlockEntity) (transactions : List TransactionEntity)
    (blobs : List BlobEntity) (slot : Nat)
    (decodeSlot : String → Except BlobscanClientError Nat)
    (decodeChunks : String → Except BlobscanClientError (List FailedSlotsChunkEntity))
    (slots_chunks : List FailedSlotsChunkEntity) (chunk_ids : List Nat)
    (resp : HttpResponse)
    (hok : get_token sign dflt cfg now cache = .ok r) :
    (index c (.ok r.token) block transactions blobs resp).2.map SentRequest.bearer =
      [r.token] ∧
    (update_slot c (.ok r.token) slot resp).2.map SentRequest.bearer = [r.token] ∧
    (get_slot c (.ok r.token) decodeSlot resp).2.map SentRequest.bearer = [r.token] ∧
    (get_failed_slots_chunks c (.ok r.token) decodeChunks resp).2.map
      SentRequest.bearer = [r.token] ∧
    (add_failed_slots_chunks c (.ok r.token) slots_chunks resp).2.map
      SentRequest.bearer = [r.token] ∧
    (remove_failed_slots_chunks c (.ok r.token) chunk_ids resp).2.map
      SentRequest.bearer = [r.token] := by
  refine ⟨?_, ?_, ?_, ?_, ?_, ?_⟩
  · rw [index_requests]; rfl
  · rw [update_slot_requests]; rfl
  · rw [get_slot_requests]; rfl
  · rw [get_failed_slots_chunks_requests]; rfl
  · rw [add_failed_slots_chunks_requests]; rfl
  · rw [remove_failed_slots_chunks_requests]; rfl

/-- C6 witness: with the token freshly issued by `get_token` at time 0, each
of the six operations sends exactly one request bearing that token. -/
theorem c6_every_request_bears_token_witness :
    (index (with_client ⟨"http://b", "k", none⟩) (.ok "k.0.1800") ⟨0⟩ [] []
      ⟨200, ""⟩).2.map SentRequest.bearer = ["k.0.1800"] ∧
    (update_slot (with_client ⟨"http://b", "k", none⟩) (.ok "k.0.1800") 7
      ⟨200, ""⟩).2.map SentRequest.bearer = ["k.0.1800"] ∧
    (get_slot (with_client ⟨"http://b", "k", none⟩) (.ok "k.0.1800")
      (fun _ => .ok 42) ⟨200, ""⟩).2.map SentRequest.bearer = ["k.0.1800"] ∧
    (get_failed_slots_chunks (with_client ⟨"http://b", "k", none⟩) (.ok "k.0.1800")
      (fun _ => .ok []) ⟨200, ""⟩).2.map SentRequest.bearer = ["k.0.1800"] ∧
    (add_failed_slots_chunks (with_client ⟨"http://b", "k", none⟩) (.ok "k.0.1800")
      [⟨3⟩] ⟨200, ""⟩).2.map SentRequest.bearer = ["k.0.1800"] ∧
    (remove_failed_slots_chunks (with_client ⟨"http://b", "k", none⟩) (.ok "k.0.1800")
      [1, 2] ⟨200, ""⟩).2.map SentRequest.bearer = ["k.0.1800"] :=
  c6_every_request_bears_token (with_client ⟨"http://b", "k", none⟩)
    signEx 60 (build_jwt_manager "k") 0 none
    ⟨"k.0.1800", some ⟨"k.0.1800", 0, 1800⟩, 1⟩
    ⟨0⟩ [] [] 7 (fun _ => .ok 42) (fun _ => .ok []) [⟨3⟩] [1, 2] ⟨200, ""⟩ rfl

/-- C7: `build_jwt_manager` leaves the safety margin unset (`None`), and in
that configuration the manager uses the default margin `dflt`: any token
`get_token` returns has remaining validity of at least `dflt` at the moment
it is returned (for any default not exceeding the 30-minute refresh
interval). -/
theorem c7_default_safety_margin (k : String)
    (sign : Int → Int → String → Except AuthError String)
    (dflt now : Int) (cache : Option CachedToken) (r : GetTokenResult)
    (hd : dflt ≤ 1800)
    (hok : get_token sign dflt (build_jwt_manager k) now cache = .ok r) :
    (build_jwt_manager k).safety_magin = none ∧
    (r.cache ≠ none ∧ r.token = (r.cache.getD ⟨"", 0, 0⟩).value ∧
      dflt ≤ (r.cache.getD ⟨"", 0, 0⟩).expires_at - now) := by
  have hmr : (build_jwt_manager k).safety_magin.getD dflt ≤
      (build_jwt_manager k).refresh_interval := hd
  have h := get_token_validity sign dflt (build_jwt_manager k) now cache r hmr hok
  exact ⟨rfl, h⟩

/-- C7 witness: with the manager built by the client (margin unset, default
60 seconds) the token issued at time 0 has 1800 seconds of validity, at
least the 60-second default. -/
theorem c7_default_safety_margin_witness :
    (build_jwt_manager "k").safety_magin = none ∧
    ((GetTokenResult.mk "k.0.1800" (some ⟨"k.0.1800", 0, 1800⟩) 1).cache ≠ none ∧
      (GetTokenResult.mk "k.0.1800" (some ⟨"k.0.1800", 0, 1800⟩) 1).token =
        ((GetTokenResult.mk "k.0.1800" (some ⟨"k.0.1800", 0, 1800⟩) 1).cache.getD
          ⟨"", 0, 0⟩).value ∧
      (60 : Int) ≤
        ((GetTokenResult.mk "k.0.1800" (some ⟨"k.0.1800", 0, 1800⟩) 1).cache.getD
          ⟨"", 0, 0⟩).expires_at - 0) :=
  c7_default_safety_margin "k" signEx 60 0 none
    ⟨"k.0.1800", some ⟨"k.0.1800", 0, 1800⟩, 1⟩ (by decide) rfl

/-- C8: `remove_failed_slots_chunks` sends one POST request to the URL
formed from the base URL, the fixed `/api/` path prefix and the path
`delete-failed-slots-chunks`, with the `chunk_ids` JSON body, and returns
`Ok(())` exactly when the response status is 200. -/
theorem c8_remove_failed_slots_chunks_contract (c : BlobscanClient) (t : String)
    (chunk_ids : List Nat) (resp : HttpResponse) :
    remove_failed_slots_chunks c (.ok t) chunk_ids resp =
      ((if resp.status = 200 then .ok ()
        else .error (.BlobscanClientError resp.body)),
       [⟨"POST", c.base_url ++ "/api/" ++ "delete-failed-slots-chunks", t,
         some (.removeChunksBody chunk_ids)⟩]) ∧
    ((remove_failed_slots_chunks c (.ok t) chunk_ids resp).1 = .ok () ↔
      resp.status = 200) := by
  by_cases h : resp.status = 200 <;>
    simp [remove_failed_slots_chunks, build_url, h]

/-- C9: `with_client` configures the token manager with exactly the config's
secret key, a 30-minute (1800-second) refresh interval and an absent safety
margin; two configs agreeing on `secret_key` yield identical manager
configurations whatever their other fields. -/
theorem c9_manager_from_secret_key_only (config c1 c2 : Config)
    (h : c1.secret_key = c2.secret_key) :
    (with_client config).jwt_manager =
      ⟨config.secret_key, 1800, none⟩ ∧
    (with_client c1).jwt_manager = (with_client c2).jwt_manager := by
  simp [with_client, build_jwt_manager, h]

/-- C9 witness: two configs sharing a secret key but differing in base URL
and timeout produce identical manager configurations. -/
theorem c9_manager_from_secret_key_only_witness :
    (with_client ⟨"http://u", "k", none⟩).jwt_manager =
      ⟨"k", 1800, none⟩ ∧
    (with_client ⟨"http://a", "k", some 5⟩).jwt_manager =
      (with_client ⟨"http://b2", "k", none⟩).jwt_manager :=
  c9_manager_from_secret_key_only ⟨"http://u", "k", none⟩
    ⟨"http://a", "k", some 5⟩ ⟨"http://b2", "k", none⟩ rfl

/-- C10: when the token result is an error, every one of the six operations
returns that error converted to the client error type and sends no request
at all: no HTTP request is ever sent without a successfully obtained token. -/
theorem c10_token_error_sends_nothing (c : BlobscanClient) (e : AuthError)
    (block : BlockEntity) (transactions : List TransactionEntity)
    (blobs : List BlobEntity) (slot : Nat)
    (decodeSlot : String → Except BlobscanClientError Nat)
    (decodeChunks : String → Except BlobscanClientError (List FailedSlotsChunkEntity))
    (slots_chunks : List FailedSlotsChunkEntity) (chunk_ids : List Nat)
    (resp : HttpResponse) :
    index c (.error e) block transactions blobs resp = (.error (.JwtError e), []) ∧
    update_slot c (.error e) slot resp = (.error (.JwtError e), []) ∧
    get_slot c (.error e) decodeSlot resp = (.error (.JwtError e), []) ∧
    get_failed_slots_chunks c (.error e) decodeChunks resp =
      (.error (.JwtError e), []) ∧
    add_failed_slots_chunks c (.error e) slots_chunks resp =
      (.error (.JwtError e), []) ∧
    remove_failed_slots_chunks c (.error e) chunk_ids resp =
      (.error (.JwtError e), []) :=
  ⟨rfl, rfl, rfl, rfl, rfl, rfl⟩

end Blobscan
